import Mathlib

/-!
Verification of the api.imvid video-extraction gateway.

The repository contains two standalone revisions of the server:
`src/index.js` (downloads its own yt-dlp binary, background download queue,
stream/download endpoints) and `src/unnamed/part_001` (pip-installed binary,
TTL cache keyed by URL and video id, retryOperation).  Both are embedded
below; each definition carries a comment naming the source lines it
translates.
-/

namespace JsMap

/-- Lookup in a JavaScript Map modelled as an association list
(first binding for the key wins; set always replaces). -/
def get [BEq κ] (m : List (κ × α)) (k : κ) : Option α :=
  (m.find? (fun p => p.1 == k)).map (fun p => p.2)

/-- Map.prototype.set: replace any existing binding for the key. -/
def set [BEq κ] (m : List (κ × α)) (k : κ) (v : α) : List (κ × α) :=
  (k, v) :: m.filter (fun p => !(p.1 == k))

/-- Map.prototype.delete. -/
def delete [BEq κ] (m : List (κ × α)) (k : κ) : List (κ × α) :=
  m.filter (fun p => !(p.1 == k))

theorem find_filter_out [DecidableEq κ] (m : List (κ × α)) (k k2 : κ) (h : ¬ k = k2) :
    (m.filter (fun p => !(p.1 == k))).find? (fun p => p.1 == k2)
      = m.find? (fun p => p.1 == k2) := by
  have hkk : (k == k2) = false := by simpa using h
  induction m with
  | nil => rfl
  | cons p rest ih =>
    by_cases hp : p.1 = k
    · have hk2 : (p.1 == k2) = false := by simpa using fun hh => h (hp ▸ hh)
      simp [List.filter, List.find?, hp, hk2, ih, hkk]
    · have hpk : (p.1 == k) = false := by simpa using hp
      by_cases hq : p.1 = k2
      · have hk2k : (k2 == k) = false := by simpa using fun hh : k2 = k => h hh.symm
        simp [List.filter, List.find?, hpk, hq, hk2k]
      · have hk2 : (p.1 == k2) = false := by simpa using hq
        simp [List.filter, List.find?, hpk, hk2, ih]

theorem find_filter_self [DecidableEq κ] (m : List (κ × α)) (k : κ) :
    (m.filter (fun p => !(p.1 == k))).find? (fun p => p.1 == k) = none := by
  induction m with
  | nil => rfl
  | cons p rest ih =>
    by_cases hp : p.1 = k
    · simp [List.filter, hp, ih]
    · have hpk : (p.1 == k) = false := by simpa using hp
      simp [List.filter, List.find?, hpk, ih]

theorem get_set_self [DecidableEq κ] (m : List (κ × α)) (k : κ) (v : α) :
    get (set m k v) k = some v := by
  simp [get, set, List.find?]

theorem get_set_ne [DecidableEq κ] (m : List (κ × α)) (k k2 : κ) (v : α)
    (h : ¬ k = k2) : get (set m k v) k2 = get m k2 := by
  have hk : ¬ k = k2 := h
  simp only [get, set, List.find?]
  have : (k == k2) = false := by simpa using hk
  rw [this]
  simp only [find_filter_out m k k2 hk]

theorem get_delete_self [DecidableEq κ] (m : List (κ × α)) (k : κ) :
    get (delete m k) k = none := by
  simp [get, delete, find_filter_self]

end JsMap

/-! JavaScript truthiness helpers: `0`, `""`, `null`/`undefined` are falsy. -/

/-- Value of the JS expression `x || d` for an optional number
(`0` is falsy and falls through to the default). -/
def orNat (x : Option Nat) (d : Nat) : Nat :=
  match x with
  | some v => if v = 0 then d else v
  | none => d

/-- Value of the JS expression `x || d` for an optional string
(`""` is falsy and falls through to the default). -/
def orStr (x : Option String) (d : String) : String :=
  match x with
  | some s => if s = "" then d else s
  | none => d

/-- Truthy projection of an optional number: `some v` when `v` is truthy. -/
def truthyNat (x : Option Nat) : Option Nat :=
  match x with
  | some v => if v = 0 then none else some v
  | none => none

/-- Truthy projection of an optional string. -/
def truthyStr (x : Option String) : Option String :=
  match x with
  | some s => if s = "" then none else some s
  | none => none

/-- Value of the JS expression `a || b || null` on optional numbers. -/
def natOrElse (a b : Option Nat) : Option Nat :=
  match truthyNat a with
  | some v => some v
  | none => truthyNat b

/-- Character-list version of: the second list starts with the first. -/
def charsStartWith : List Char → List Char → Bool
  | [], _ => true
  | _ :: _, [] => false
  | a :: as, b :: bs => a == b && charsStartWith as bs

/-- Character-list substring test. -/
def charsContain (needle : List Char) : List Char → Bool
  | [] => charsStartWith needle []
  | c :: rest => charsStartWith needle (c :: rest) || charsContain needle rest

/-- Case-insensitive substring test, modelling the case-insensitive regex
tests of part_001 (e.g. the test for the youtube.com domain). -/
def containsSubCI (s pat : String) : Bool :=
  charsContain (pat.data.map Char.toLower) (s.data.map Char.toLower)

/-- Case-sensitive substring test, modelling String.prototype.includes
used by detectPlatform in index.js lines 179-185. -/
def containsSubCS (s pat : String) : Bool :=
  charsContain pat.data s.data

/-! ## Model of src/unnamed/part_001 (standalone revision with TTL cache and retry) -/

/-- CONFIG.cacheTTL, part_001 line 16: 30 minutes in milliseconds. -/
def p1CacheTTL : Nat := 1800000

/-- CONFIG.maxRetries, part_001 line 17. -/
def p1MaxRetries : Nat := 2

/-- CONFIG.retryDelay, part_001 line 18: milliseconds. -/
def p1RetryDelay : Nat := 2000

/-- CONFIG.extractTimeout, part_001 line 15: milliseconds. -/
def p1ExtractTimeout : Nat := 30000

/-- detectPlatform, part_001 lines 66-71, iterating the PLATFORMS table
(lines 32-60) in definition order; each detect field is a case-insensitive
regex alternation over domain literals. -/
def p1Detect (url : String) : Option String :=
  if containsSubCI url "youtube.com" || containsSubCI url "youtu.be"
      || containsSubCI url "music.youtube.com" then some "youtube"
  else if containsSubCI url "instagram.com" || containsSubCI url "instagr.am" then
    some "instagram"
  else if containsSubCI url "tiktok.com" then some "tiktok"
  else if containsSubCI url "facebook.com" || containsSubCI url "fb.watch" then
    some "facebook"
  else none

/-- The structured JSON emitted by the extraction tool in dump-json mode,
restricted to the fields part_001 lines 142-160 read.  Absent fields are
none; JS falsy fallbacks are applied by the helpers above. -/
structure RawMeta where
  id : String
  title : Option String
  uploader : Option String
  channel : Option String
  thumbnail : Option String
  duration : Option Nat
  width : Option Nat
  height : Option Nat
  format_note : Option String
  url : Option String
  filesize : Option Nat
  filesize_approx : Option Nat
  ext : Option String
deriving DecidableEq

/-- The metadata record part_001 builds and caches (lines 148-160). -/
structure Meta where
  title : String
  author : String
  thumbnail : Option String
  duration : Nat
  platform : String
  videoId : String
  originalUrl : String
  streamUrl : Option String
  filesize : Option Nat
  resolution : String
  format : String
deriving DecidableEq

/-- Resolution selection, part_001 lines 143-146:
width and height both truthy give WxH, otherwise format_note or unknown. -/
def p1Resolution (m : RawMeta) : String :=
  match truthyNat m.width, truthyNat m.height with
  | some w, some h => toString w ++ "x" ++ toString h
  | _, _ => orStr m.format_note "unknown"

/-- Construction of the metadata record, part_001 lines 148-160. -/
def buildMeta (meta : RawMeta) (videoUrl platform : String) : Meta :=
  { title := orStr meta.title "Unknown Title"
    author := orStr meta.uploader (orStr meta.channel "Unknown Author")
    thumbnail := truthyStr meta.thumbnail
    duration := orNat meta.duration 0
    platform := platform
    videoId := meta.id
    originalUrl := videoUrl
    streamUrl := truthyStr meta.url
    filesize := natOrElse meta.filesize_approx meta.filesize
    resolution := p1Resolution meta
    format := orStr meta.ext "mp4" }

/-- Outcome of one run of retryOperation, part_001 lines 89-101:
the final result, how many times the wrapped operation was invoked,
and the sleep durations inserted between attempts. -/
structure RetryOutcome (α : Type) where
  result : Except String α
  invocations : Nat
  delays : List Nat

/-- The attempt loop of retryOperation, part_001 lines 91-99.  The operation
is modelled as a function of the attempt number (the subprocess outcome may
differ between invocations); remaining counts the attempts still allowed.
On a non-final failure the code sleeps retryDelay times the attempt number. -/
def retryFrom (op : Nat → Except String α) : Nat → Nat → RetryOutcome α
  | _, 0 => { result := Except.error "no attempts", invocations := 0, delays := [] }
  | attempt, r + 1 =>
    match op attempt with
    | Except.ok v => { result := Except.ok v, invocations := 1, delays := [] }
    | Except.error e =>
      if r = 0 then { result := Except.error e, invocations := 1, delays := [] }
      else
        let rest := retryFrom op (attempt + 1) r
        { result := rest.result
          invocations := rest.invocations + 1
          delays := p1RetryDelay * attempt :: rest.delays }

/-- retryOperation, part_001 lines 89-101: attempts run from 1 up to
CONFIG.maxRetries; every caught error is retried, whatever its message. -/
def retryOperation (op : Nat → Except String α) : RetryOutcome α :=
  retryFrom op 1 p1MaxRetries

/-- A cache entry of part_001 (lines 162-163): the entry stored under the
URL key has no originalUrl field; the entry stored under the video id does. -/
structure P1Entry where
  metadata : Meta
  timestamp : Nat
  originalUrl : Option String
deriving DecidableEq

/-- Progress of one call to extractMetadata (part_001 lines 107-166) through
its suspension point.  The synchronous part up to the first subprocess
invocation runs atomically on the event loop; the call then awaits the
subprocess and finishes in the completion handler. -/
inductive P1Phase
  | failedUnsupported
  | doneHit (m : Meta)
  | awaiting (url platform : String)
  | doneFresh (m : Meta)
deriving DecidableEq

/-- Shared module state of part_001: the cache Map (line 26) and a count of
subprocess invocations issued so far; reqs records each extractMetadata
call in arrival order. -/
structure P1Sys where
  cache : List (String × P1Entry)
  spawnCount : Nat
  reqs : List P1Phase
deriving DecidableEq

/-- The synchronous half of extractMetadata, part_001 lines 107-131:
platform detection, the cache check, and - on a miss - the first
subprocess invocation issued by retryOperation.  There is no in-flight
map: nothing records that an extraction for this key is already pending. -/
def stepStart (st : P1Sys) (url : String) (now : Nat) : P1Sys :=
  match p1Detect url with
  | none => { st with reqs := st.reqs ++ [P1Phase.failedUnsupported] }
  | some platform =>
    match JsMap.get st.cache url with
    | some c =>
      if now - c.timestamp < p1CacheTTL then
        { st with reqs := st.reqs ++ [P1Phase.doneHit c.metadata] }
      else
        { st with spawnCount := st.spawnCount + 1
                  reqs := st.reqs ++ [P1Phase.awaiting url platform] }
    | none =>
      { st with spawnCount := st.spawnCount + 1
                reqs := st.reqs ++ [P1Phase.awaiting url platform] }

/-- The completion half of extractMetadata, part_001 lines 140-165: parse
the subprocess output, build the record and store it under both the URL
and the video id (lines 162-163). -/
def stepComplete (st : P1Sys) (i : Nat) (raw : RawMeta) (now : Nat) : P1Sys :=
  match st.reqs.get? i with
  | some (P1Phase.awaiting url platform) =>
    let m := buildMeta raw url platform
    { st with
      cache := JsMap.set (JsMap.set st.cache url ⟨m, now, none⟩)
                 raw.id ⟨m, now, some url⟩
      reqs := st.reqs.set i (P1Phase.doneFresh m) }
  | _ => st

/-- Events of the part_001 interleaving model: a new extractMetadata call
arriving, or the subprocess of a pending call returning. -/
inductive P1Event
  | start (url : String) (now : Nat)
  | complete (i : Nat) (raw : RawMeta) (now : Nat)

/-- Run a schedule of arrivals and completions against the shared state. -/
def runP1 (st : P1Sys) (events : List P1Event) : P1Sys :=
  events.foldl
    (fun s e =>
      match e with
      | P1Event.start url now => stepStart s url now
      | P1Event.complete i raw now => stepComplete s i raw now)
    st

/-- Initial module state of part_001: empty cache, no subprocess yet. -/
def p1Init : P1Sys := { cache := [], spawnCount := 0, reqs := [] }

/-! ## Model of src/index.js (revision with background download queue) -/

/-- CACHE_TTL, index.js line 24: 1 hour in milliseconds. -/
def CACHE_TTL : Nat := 3600000

/-- MAX_CACHE_SIZE_MB, index.js line 25. -/
def MAX_CACHE_SIZE_MB : Nat := 500

/-- detectPlatform, index.js lines 179-185 (case-sensitive includes). -/
def idxDetect (url : String) : Option String :=
  if containsSubCS url "youtube.com" || containsSubCS url "youtu.be" then some "youtube"
  else if containsSubCS url "instagram.com" then some "instagram"
  else if containsSubCS url "tiktok.com" then some "tiktok"
  else if containsSubCS url "facebook.com" || containsSubCS url "fb.watch" then
    some "facebook"
  else none

/-- A metadataCache entry, index.js line 197: a payload plus the store time. -/
structure CacheEntryIdx (α : Type) where
  data : α
  time : Nat
deriving DecidableEq

/-- getCachedMetadata, index.js lines 187-194.  Returns the payload while the
entry is younger than CACHE_TTL; otherwise deletes the entry and returns
none.  The function also returns the (possibly pruned) cache. -/
def getCachedMetadata (cache : List (String × CacheEntryIdx α)) (videoId : String)
    (now : Nat) : Option α × List (String × CacheEntryIdx α) :=
  match JsMap.get cache videoId with
  | some c =>
    if now - c.time < CACHE_TTL then (some c.data, cache)
    else (none, JsMap.delete cache videoId)
  | none => (none, JsMap.delete cache videoId)

/-- setCachedMetadata, index.js lines 196-198: the record is stored under the
videoId only. -/
def setCachedMetadata (cache : List (String × CacheEntryIdx α)) (videoId : String)
    (d : α) (now : Nat) : List (String × CacheEntryIdx α) :=
  JsMap.set cache videoId ⟨d, now⟩

/-- One entry of requested_formats in the extractor JSON, restricted to the
fields index.js lines 437-446 read. -/
structure Fmt where
  vcodec : Option String
  acodec : Option String
  filesize : Option Nat
  filesize_approx : Option Nat
  height : Option Nat
deriving DecidableEq

/-- Top-level extractor JSON fields read by the /extract handler
(index.js lines 437-468). -/
structure IdxMeta where
  requested_formats : List Fmt
  id : Option String
  video_id : Option String
  title : Option String
  uploader : Option String
  channel : Option String
  uploader_id : Option String
  thumbnail : Option String
  duration : Option Nat
  filesize : Option Nat
  filesize_approx : Option Nat
  height : Option Nat
  ext : Option String
deriving DecidableEq

/-- Test for a video component, index.js line 438:
f.vcodec truthy and not the string none. -/
def fmtHasVideo (f : Fmt) : Bool :=
  match f.vcodec with
  | some v => decide (¬ v = "") && decide (¬ v = "none")
  | none => false

/-- Test for an audio component, index.js line 439. -/
def fmtHasAudio (f : Fmt) : Bool :=
  match f.acodec with
  | some a => decide (¬ a = "") && decide (¬ a = "none")
  | none => false

/-- Size of an optionally-present format, index.js lines 443-444:
filesize, falling back to filesize_approx, falling back to 0. -/
def fmtSize (f : Option Fmt) : Nat :=
  match f with
  | some f =>
    match truthyNat f.filesize with
    | some v => v
    | none =>
      match truthyNat f.filesize_approx with
      | some v => v
      | none => 0
  | none => 0

/-- The JSON payload returned by GET /extract, index.js lines 455-468. -/
structure ExtractResponse where
  title : String
  author : String
  thumbnail : Option String
  duration : Nat
  platform : String
  videoId : String
  downloadUrl : String
  streamUrl : String
  statusUrl : String
  filesize : Option Nat
  resolution : String
  format : String
deriving DecidableEq

/-- Format selection and response construction of the /extract handler,
index.js lines 432-468.  When requested_formats is nonempty the reported
size is the sum of the video and audio component sizes (null when that sum
is 0, by JS falsiness of the expression sum or-else null) and the
resolution is the video component height with a p suffix; otherwise the
top-level fields are used.  Unknown duration, size and height give 0, null
and the string unknown. -/
def buildExtractResponse (metadata : IdxMeta) (platform videoUrl : String)
    (nowMs : Nat) : ExtractResponse :=
  let rf := metadata.requested_formats
  let videoFormat := rf.find? fmtHasVideo
  let audioFormat := rf.find? fmtHasAudio
  let filesize :=
    if 0 < rf.length then
      truthyNat (some (fmtSize videoFormat + fmtSize audioFormat))
    else natOrElse metadata.filesize metadata.filesize_approx
  let resolution :=
    if 0 < rf.length then
      match videoFormat with
      | some vf =>
        match truthyNat vf.height with
        | some h => toString h ++ "p"
        | none => "unknown"
      | none => "unknown"
    else
      match truthyNat metadata.height with
      | some h => toString h ++ "p"
      | none => "unknown"
  let videoId := orStr metadata.id
    (orStr metadata.video_id ("vid_" ++ toString nowMs))
  { title := orStr metadata.title "Unknown Title"
    author := orStr metadata.uploader
      (orStr metadata.channel (orStr metadata.uploader_id "Unknown Author"))
    thumbnail := truthyStr metadata.thumbnail
    duration := orNat metadata.duration 0
    platform := platform
    videoId := videoId
    downloadUrl := "/stream/" ++ videoId
    streamUrl := "/stream/" ++ videoId
    statusUrl := "/status/" ++ videoId
    filesize := filesize
    resolution := resolution
    format := orStr metadata.ext "mp4" }

/-- Status values stored in downloadQueue entries (index.js lines 210-233). -/
inductive DlStatus
  | downloading
  | completed
  | failed
deriving DecidableEq

/-- A downloadQueue entry, index.js line 22 comment and lines 210-233:
status, progress, error, filePath, process handle and attached client
streams (the model keeps only their count; the source never appends a
response stream to the array). -/
structure IdxQEntry where
  status : DlStatus
  progress : Nat
  filePath : Option String
  error : Option String
  process : Option Nat
  streams : Nat
deriving DecidableEq

/-- Process-table state of the server: downloadQueue, the set of spawned
subprocesses (pid mapped to whether it is still running), and pid supply. -/
structure IdxState where
  queue : List (String × IdxQEntry)
  procs : List (Nat × Bool)
  nextPid : Nat
deriving DecidableEq

/-- Spawning a yt-dlp subprocess (ytdlpWrap.exec / spawn): the new process
is running; nothing in the code waits for capacity first. -/
def spawnProc (st : IdxState) : IdxState × Nat :=
  ({ st with procs := (st.nextPid, true) :: st.procs, nextPid := st.nextPid + 1 },
   st.nextPid)

/-- Whether a spawned subprocess is currently running. -/
def procRunning (st : IdxState) (pid : Nat) : Bool :=
  match JsMap.get st.procs pid with
  | some b => b
  | none => false

/-- Mark a process as no longer running (its close event fired, or it was
killed). -/
def procStop (st : IdxState) (pid : Nat) : IdxState :=
  { st with procs := JsMap.set st.procs pid false }

/-- Number of subprocesses running at once. -/
def runningCount (st : IdxState) : Nat :=
  (st.procs.filter (fun p => p.2)).length

/-- Output path of a cached download, index.js line 203. -/
def cachePathOf (videoId : String) : String :=
  "video_cache/" ++ videoId ++ ".mp4"

/-- downloadVideoBackground up to its first suspension inside the returned
promise, index.js lines 201-252.  If the output file already exists the
entry is marked completed (lines 207-218); otherwise the entry is reset to
downloading (lines 226-233), yt-dlp is spawned immediately (line 245) and
the process handle is stored in the entry (lines 248-251).  No semaphore
or concurrency limiter exists anywhere on this path. -/
def downloadVideoBackgroundStart (st : IdxState) (videoId : String)
    (alreadyCached : Bool) : IdxState :=
  if alreadyCached then
    let entry : IdxQEntry :=
      { status := DlStatus.completed, progress := 100,
        filePath := some (cachePathOf videoId), error := none,
        process := none, streams := 0 }
    { st with queue := JsMap.set st.queue videoId entry }
  else
    let entry : IdxQEntry :=
      { status := DlStatus.downloading, progress := 0, filePath := none,
        error := none, process := none, streams := 0 }
    let st1 := { st with queue := JsMap.set st.queue videoId entry }
    let r := spawnProc st1
    let st2 := r.1
    match JsMap.get st2.queue videoId with
    | some qd =>
      { st2 with queue := JsMap.set st2.queue videoId { qd with process := some r.2 } }
    | none => st2

/-- The close handler of downloadVideoBackground for exit code 0,
index.js lines 274-304: the temp file is moved into place and the entry
becomes completed. -/
def dvbOnCloseZero (st : IdxState) (videoId : String) : IdxState :=
  match JsMap.get st.queue videoId with
  | some qd =>
    let entry :=
      { qd with status := DlStatus.completed, progress := 100,
                filePath := some (cachePathOf videoId), error := none,
                streams := 0 }
    { st with queue := JsMap.set st.queue videoId entry }
  | none => st

/-- The close handler of downloadVideoBackground for a nonzero exit code,
index.js lines 305-331: the entry is marked failed with the error message
recorded; the entry itself stays in downloadQueue (nothing deletes it). -/
def dvbOnCloseNonzero (st : IdxState) (videoId : String) (code : Nat) : IdxState :=
  match JsMap.get st.queue videoId with
  | some qd =>
    let entry :=
      { qd with status := DlStatus.failed, progress := 0, filePath := none,
                error := some ("Download failed with code " ++ toString code),
                streams := 0 }
    { st with queue := JsMap.set st.queue videoId entry }
  | none => st

/-- streamVideoLive, index.js lines 357-378: spawn yt-dlp writing to stdout
and overwrite the queue entry process handle with the new process. -/
def streamVideoLiveStep (st : IdxState) (videoId : String) : IdxState × Nat :=
  let r := spawnProc st
  let st1 := r.1
  match JsMap.get st1.queue videoId with
  | some qd =>
    ({ st1 with queue := JsMap.set st1.queue videoId { qd with process := some r.2 } },
     r.2)
  | none => (st1, r.2)

/-- The req close handler of GET /stream/:videoId, index.js lines 587-596:
on client disconnect the live stream is destroyed and, when the queue
entry holds a process and no other client streams are attached, that
process is killed. -/
def handleStreamCloseIdx (st : IdxState) (videoId : String) : IdxState :=
  match JsMap.get st.queue videoId with
  | some qd =>
    match qd.process with
    | some pid => if qd.streams = 0 then procStop st pid else st
    | none => st
  | none => st

/-- The metadata payload the /stream and /download handlers read back from
metadataCache (stored by index.js line 470). -/
structure StoredMeta where
  title : String
  originalUrl : String
  platform : String
deriving DecidableEq

/-- Filename sanitisation, index.js lines 541-543 and 641-643: every
character outside ASCII letters and digits becomes an underscore and the
result is truncated to 50 characters. -/
def sanitizeTitle (t : String) : String :=
  String.mk ((t.data.map (fun c => if c.isAlphanum then c else '_')).take 50)

/-- An incoming HTTP request to the stream or download endpoints: the path
parameter and the optional Range header.  Neither handler ever reads the
Range header. -/
structure HttpRequest where
  videoId : String
  rangeHeader : Option String
deriving DecidableEq

/-- Response body: a JSON object (field-value pairs), the entire cached
file piped through createReadStream with no options, or a live subprocess
stdout pipe. -/
inductive RespBody
  | json (fields : List (String × String))
  | fileAll (path : String)
  | live (pid : Nat)
deriving DecidableEq

/-- An HTTP response: status code, headers and body. -/
structure HttpResponse where
  status : Nat
  headers : List (String × String)
  body : RespBody
deriving DecidableEq

/-- Render an optional error message as JSON does (null when absent). -/
def optOrNull (o : Option String) : String :=
  match o with
  | some s => s
  | none => "null"

/-- GET /stream/:videoId, index.js lines 522-604.  Looks up the queue entry
and cached metadata (404 when either is missing), reports a recorded
failure as 500, serves the completed cached file whole when it exists, and
otherwise starts a live yt-dlp stream.  The returned triple is the
response, the new process/queue state and the (possibly pruned) metadata
cache. -/
def handleStreamRequest (st : IdxState)
    (metaCache : List (String × CacheEntryIdx StoredMeta)) (now : Nat)
    (fileExists : String → Bool) (fileSizeOf : String → Nat)
    (req : HttpRequest) :
    HttpResponse × IdxState × List (String × CacheEntryIdx StoredMeta) :=
  let videoId := req.videoId
  let qe := JsMap.get st.queue videoId
  let mdc := getCachedMetadata metaCache videoId now
  match qe, mdc.1 with
  | some qd, some meta =>
    if qd.status = DlStatus.failed then
      ({ status := 500, headers := []
         body := RespBody.json
           [("error", "Download failed"), ("details", optOrNull qd.error)] },
       st, mdc.2)
    else
      let filename :=
        if meta.title = "" then "video_" ++ videoId ++ ".mp4"
        else sanitizeTitle meta.title ++ ".mp4"
      let liveBranch :=
        let r := streamVideoLiveStep st videoId
        ({ status := 200
           headers := [("Content-Type", "video/mp4"),
                       ("Content-Disposition",
                        "attachment; filename=\"" ++ filename ++ "\""),
                       ("Transfer-Encoding", "chunked")]
           body := RespBody.live r.2 },
         r.1, mdc.2)
      match qd.status, qd.filePath with
      | DlStatus.completed, some fp =>
        if fileExists fp then
          ({ status := 200
             headers := [("Content-Type", "video/mp4"),
                         ("Content-Length", toString (fileSizeOf fp)),
                         ("Content-Disposition",
                          "attachment; filename=\"" ++ filename ++ "\"")]
             body := RespBody.fileAll fp },
           st, mdc.2)
        else liveBranch
      | _, _ => liveBranch
  | _, _ =>
    ({ status := 404, headers := []
       body := RespBody.json
         [("error", "Video not found"),
          ("message", "Call /extract first to get video metadata")] },
     st, mdc.2)

/-- GET /download/:videoId, index.js lines 607-677.  404 when the videoId
is unknown, 500 for a recorded failure, 202 with progress JSON while the
background download is still running, and the whole cached file (no range
handling anywhere) when the download completed and the file exists. -/
def handleDownloadVid (queue : List (String × IdxQEntry))
    (metaCache : List (String × CacheEntryIdx StoredMeta)) (now : Nat)
    (fileExists : String → Bool) (fileSizeOf : String → Nat)
    (req : HttpRequest) :
    HttpResponse × List (String × CacheEntryIdx StoredMeta) :=
  let videoId := req.videoId
  match JsMap.get queue videoId with
  | none =>
    ({ status := 404, headers := []
       body := RespBody.json
         [("error", "Video not found"),
          ("message",
           "Call /extract first to get video metadata and start download")] },
     metaCache)
  | some st =>
    if st.status = DlStatus.failed then
      ({ status := 500, headers := []
         body := RespBody.json
           [("error", "Download failed"), ("details", optOrNull st.error)] },
       metaCache)
    else if st.status = DlStatus.downloading then
      ({ status := 202, headers := []
         body := RespBody.json
           [("message",
             "Video is still downloading. Use /stream endpoint for immediate progressive download."),
            ("status", "downloading"),
            ("progress", toString st.progress),
            ("statusUrl", "/status/" ++ videoId),
            ("streamUrl", "/stream/" ++ videoId),
            ("retryAfter", "5")] },
       metaCache)
    else
      match st.filePath with
      | some fp =>
        if fileExists fp then
          let mdc := getCachedMetadata metaCache videoId now
          let filename :=
            match mdc.1 with
            | some m =>
              if m.title = "" then "video_" ++ videoId ++ ".mp4"
              else sanitizeTitle m.title ++ ".mp4"
            | none => "video_" ++ videoId ++ ".mp4"
          ({ status := 200
             headers := [("Content-Type", "video/mp4"),
                         ("Content-Length", toString (fileSizeOf fp)),
                         ("Content-Disposition",
                          "attachment; filename=\"" ++ filename ++ "\""),
                         ("Cache-Control", "public, max-age=31536000")]
             body := RespBody.fileAll fp },
           mdc.2)
        else
          ({ status := 500, headers := []
             body := RespBody.json [("error", "Video file not found")] },
           metaCache)
      | none =>
        ({ status := 500, headers := []
           body := RespBody.json [("error", "Unknown error")] },
         metaCache)

/-- The req close handler of the part_001 GET /download endpoint,
lines 268-273: the subprocess is killed with SIGKILL unless already
killed. -/
structure P1Proc where
  killed : Bool
deriving DecidableEq

/-- part_001 lines 268-273. -/
def p1DownloadOnReqClose (p : P1Proc) : P1Proc :=
  if p.killed then p else { p with killed := true }

/-! ## Sample values used by witnesses and counterexamples -/

/-- A supported platform URL. -/
def ytUrl : String := "https://www.youtube.com/watch?v=dQw4w9WgXcQ"

/-- A successful extractor result for that URL. -/
def sampleRaw : RawMeta :=
  { id := "dQw4w9WgXcQ", title := some "T", uploader := some "U", channel := none,
    thumbnail := some "th", duration := some 212, width := some 1280,
    height := some 720, format_note := none, url := some "https://cdn/u",
    filesize := some 1000, filesize_approx := none, ext := some "mp4" }

/-! ## Facts about the part_001 extraction path -/

/-- The synchronous half of extractMetadata never mutates the cache:
the cache is only written in the completion handler. -/
theorem stepStart_cache (st : P1Sys) (url : String) (now : Nat) :
    (stepStart st url now).cache = st.cache := by
  unfold stepStart
  cases p1Detect url with
  | none => rfl
  | some platform =>
    cases JsMap.get st.cache url with
    | none => rfl
    | some c =>
      by_cases h : now - c.timestamp < p1CacheTTL <;> simp [h]

/-- An extractMetadata call that misses the cache spawns a subprocess at
once (part_001 line 131): there is no in-flight map to stop it. -/
theorem stepStart_miss_spawn (st : P1Sys) (url : String) (now : Nat)
    (hplat : (p1Detect url).isSome) (hmiss : JsMap.get st.cache url = none) :
    (stepStart st url now).spawnCount = st.spawnCount + 1 := by
  unfold stepStart
  cases hd : p1Detect url with
  | none => rw [hd] at hplat; exact absurd hplat (by simp)
  | some platform => simp [hmiss]

/-- n extractMetadata arrivals for one uncached key, all before any
completion, each spawn their own subprocess. -/
theorem runP1_replicate_start (u : String) (t : Nat)
    (hplat : (p1Detect u).isSome) :
    ∀ (n : Nat) (st : P1Sys), JsMap.get st.cache u = none →
      (runP1 st (List.replicate n (P1Event.start u t))).spawnCount
        = st.spawnCount + n := by
  intro n
  induction n with
  | zero => intro st _; simp [runP1]
  | succ n ih =>
    intro st hmiss
    have hstep := stepStart_miss_spawn st u t hplat hmiss
    have hcache : JsMap.get (stepStart st u t).cache u = none := by
      rw [stepStart_cache]; exact hmiss
    calc (runP1 st (List.replicate (n + 1) (P1Event.start u t))).spawnCount
        = (runP1 (stepStart st u t) (List.replicate n (P1Event.start u t))).spawnCount := by
          simp [runP1, List.replicate]
      _ = (stepStart st u t).spawnCount + n := ih (stepStart st u t) hcache
      _ = st.spawnCount + (n + 1) := by rw [hstep]; omega

/-- C1, counterexample.  Two extractMetadata calls for the same URL that
both arrive before either subprocess finishes each pass the cache check
(part_001 lines 112-116, the cache is only written on completion, lines
162-163) and each spawn their own subprocess: the invocation count is 2,
not the 1 the claim requires.  There is no getOrCompute or in-flight map
anywhere in the source. -/
theorem C1_counterexample :
    (runP1 p1Init [P1Event.start ytUrl 0, P1Event.start ytUrl 0,
        P1Event.complete 0 sampleRaw 5, P1Event.complete 1 sampleRaw 6]).spawnCount = 2
    ∧ ¬ (runP1 p1Init [P1Event.start ytUrl 0, P1Event.start ytUrl 0,
        P1Event.complete 0 sampleRaw 5, P1Event.complete 1 sampleRaw 6]).spawnCount = 1 := by
  decide

/-- C1, amended.  The code performs no request coalescing: n concurrent
extraction requests for the same key, all arriving before the first
completes, spawn n subprocesses (one each).  Deduplication only happens
through the TTL cache: a request arriving after a completion within the
TTL spawns nothing. -/
theorem C1_amended_no_coalescing :
    (∀ n : Nat,
       (runP1 p1Init (List.replicate n (P1Event.start ytUrl 0))).spawnCount = n) ∧
    (runP1 p1Init [P1Event.start ytUrl 0, P1Event.complete 0 sampleRaw 1,
        P1Event.start ytUrl 2]).spawnCount = 1 := by
  constructor
  · intro n
    have h := runP1_replicate_start ytUrl 0 (by decide) n p1Init (by decide)
    simpa [p1Init] using h
  · decide

/-- C2.  After one successful extraction for a fresh URL, the record is
cached under both the URL and the extractor id (part_001 lines 162-163),
a lookup under either key yields the same metadata, and a second
extractMetadata call for the same URL within the TTL is answered from the
cache (doneHit) with no further subprocess invocation. -/
theorem C2_dual_key_cache (cache0 : List (String × P1Entry)) (s0 : Nat)
    (url plat : String) (raw : RawMeta) (t0 t1 t2 : Nat)
    (hplat : p1Detect url = some plat)
    (hfresh : JsMap.get cache0 url = none)
    (hid : ¬ raw.id = url)
    (httl : t2 - t1 < p1CacheTTL) :
    (JsMap.get (runP1 ⟨cache0, s0, []⟩ [P1Event.start url t0,
        P1Event.complete 0 raw t1, P1Event.start url t2]).cache url).map
        P1Entry.metadata = some (buildMeta raw url plat) ∧
    (JsMap.get (runP1 ⟨cache0, s0, []⟩ [P1Event.start url t0,
        P1Event.complete 0 raw t1, P1Event.start url t2]).cache raw.id).map
        P1Entry.metadata = some (buildMeta raw url plat) ∧
    (runP1 ⟨cache0, s0, []⟩ [P1Event.start url t0,
        P1Event.complete 0 raw t1, P1Event.start url t2]).reqs
      = [P1Phase.doneFresh (buildMeta raw url plat),
         P1Phase.doneHit (buildMeta raw url plat)] ∧
    (runP1 ⟨cache0, s0, []⟩ [P1Event.start url t0,
        P1Event.complete 0 raw t1, P1Event.start url t2]).spawnCount = s0 + 1 := by
  have hurl : JsMap.get (JsMap.set (JsMap.set cache0 url
      ⟨buildMeta raw url plat, t1, none⟩) raw.id
      ⟨buildMeta raw url plat, t1, some url⟩) url
      = some ⟨buildMeta raw url plat, t1, none⟩ := by
    rw [JsMap.get_set_ne _ raw.id url _ hid, JsMap.get_set_self]
  simp [runP1, stepStart, stepComplete, hplat, hfresh, hurl, httl,
    JsMap.get_set_self]

/-- C2, witness: the dual-key cache theorem applied at a concrete URL,
extractor result and pair of timestamps one millisecond apart. -/
theorem C2_witness :
    (JsMap.get (runP1 ⟨[], 0, []⟩ [P1Event.start ytUrl 0,
        P1Event.complete 0 sampleRaw 1, P1Event.start ytUrl 2]).cache ytUrl).map
        P1Entry.metadata = some (buildMeta sampleRaw ytUrl "youtube") ∧
    (JsMap.get (runP1 ⟨[], 0, []⟩ [P1Event.start ytUrl 0,
        P1Event.complete 0 sampleRaw 1, P1Event.start ytUrl 2]).cache
        sampleRaw.id).map P1Entry.metadata
      = some (buildMeta sampleRaw ytUrl "youtube") ∧
    (runP1 ⟨[], 0, []⟩ [P1Event.start ytUrl 0, P1Event.complete 0 sampleRaw 1,
        P1Event.start ytUrl 2]).reqs
      = [P1Phase.doneFresh (buildMeta sampleRaw ytUrl "youtube"),
         P1Phase.doneHit (buildMeta sampleRaw ytUrl "youtube")] ∧
    (runP1 ⟨[], 0, []⟩ [P1Event.start ytUrl 0, P1Event.complete 0 sampleRaw 1,
        P1Event.start ytUrl 2]).spawnCount = 0 + 1 :=
  C2_dual_key_cache [] 0 ytUrl "youtube" sampleRaw 0 1 2
    (by decide) (by decide) (by decide) (by decide)

/-- C3.  index.js lines 187-194: an entry stored at time t is returned by a
read strictly before t plus CACHE_TTL, while a read at or after that point
returns a miss and deletes the entry.  part_001 lines 112-116: an expired
entry on the extract path is treated as a miss and a recomputation
subprocess is spawned. -/
theorem C3_ttl_expiry :
    (∀ (cache : List (String × CacheEntryIdx Nat)) (vid : String) (d t now : Nat),
       JsMap.get cache vid = some ⟨d, t⟩ →
       (now < t + CACHE_TTL → getCachedMetadata cache vid now = (some d, cache)) ∧
       (t + CACHE_TTL ≤ now →
          (getCachedMetadata cache vid now).1 = none ∧
          JsMap.get (getCachedMetadata cache vid now).2 vid = none)) ∧
    (∀ (cache0 : List (String × P1Entry)) (s0 : Nat) (url : String)
       (e : P1Entry) (now : Nat),
       (p1Detect url).isSome → JsMap.get cache0 url = some e →
       e.timestamp + p1CacheTTL ≤ now →
       (stepStart ⟨cache0, s0, []⟩ url now).spawnCount = s0 + 1) := by
  constructor
  · intro cache vid d t now h
    constructor
    · intro hlt
      have hc : now - t < CACHE_TTL := by
        simp only [CACHE_TTL] at hlt ⊢; omega
      simp [getCachedMetadata, h, hc]
    · intro hge
      have hc : ¬ now - t < CACHE_TTL := by
        simp only [CACHE_TTL] at hge ⊢; omega
      simp [getCachedMetadata, h, hc, JsMap.get_delete_self]
  · intro cache0 s0 url e now hplat hget hexp
    unfold stepStart
    cases hd : p1Detect url with
    | none => rw [hd] at hplat; exact absurd hplat (by simp)
    | some platform =>
      have hc : ¬ now - e.timestamp < p1CacheTTL := by
        simp only [p1CacheTTL] at hexp ⊢; omega
      simp [hget, hc]

/-- C3, witness: a concrete entry stored at time 100 is served at
3600099 and is a deleted miss at 3600100; a concrete expired part_001
entry triggers a recomputation spawn. -/
theorem C3_witness :
    (getCachedMetadata [("v", (⟨7, 100⟩ : CacheEntryIdx Nat))] "v" 3600099
       = (some 7, [("v", (⟨7, 100⟩ : CacheEntryIdx Nat))])) ∧
    ((getCachedMetadata [("v", (⟨7, 100⟩ : CacheEntryIdx Nat))] "v" 3600100).1
       = none) ∧
    (JsMap.get (getCachedMetadata [("v", (⟨7, 100⟩ : CacheEntryIdx Nat))] "v"
        3600100).2 "v" = none) ∧
    (stepStart ⟨[(ytUrl, ⟨buildMeta sampleRaw ytUrl "youtube", 0, none⟩)], 4, []⟩
        ytUrl 1800000).spawnCount = 4 + 1 := by
  have h1 := (C3_ttl_expiry.1 [("v", (⟨7, 100⟩ : CacheEntryIdx Nat))] "v" 7 100
    3600099 (by decide)).1 (by decide)
  have h2 := (C3_ttl_expiry.1 [("v", (⟨7, 100⟩ : CacheEntryIdx Nat))] "v" 7 100
    3600100 (by decide)).2 (by decide)
  have h3 := C3_ttl_expiry.2 [(ytUrl, ⟨buildMeta sampleRaw ytUrl "youtube", 0, none⟩)]
    4 ytUrl ⟨buildMeta sampleRaw ytUrl "youtube", 0, none⟩ 1800000
    (by decide) (by decide) (by decide)
  exact ⟨h1, h2.1, h2.2, h3⟩

/-! ## Facts about subprocess concurrency in index.js -/

/-- Spawning adds exactly one running process. -/
theorem runningCount_spawn (st : IdxState) :
    runningCount (spawnProc st).1 = runningCount st + 1 := by
  simp [runningCount, spawnProc, List.filter]

/-- Starting a background download for an uncached video spawns exactly one
more running subprocess; the handler path contains no acquire step that
could block or queue the caller. -/
theorem runningCount_dvbStart (st : IdxState) (vid : String) :
    runningCount (downloadVideoBackgroundStart st vid false)
      = runningCount st + 1 := by
  simp only [downloadVideoBackgroundStart, Bool.false_eq_true, if_false]
  split <;> simp [runningCount, spawnProc, List.filter]

/-- n background downloads for n distinct videoIds, issued from a fresh
server state. -/
def startMany : Nat → IdxState
  | 0 => { queue := [], procs := [], nextPid := 0 }
  | n + 1 => downloadVideoBackgroundStart (startMany n) ("v" ++ toString n) false

/-- Every one of the n downloads has its own subprocess running at once. -/
theorem startMany_running (n : Nat) : runningCount (startMany n) = n := by
  induction n with
  | zero => rfl
  | succ n ih => simp [startMany, runningCount_dvbStart, ih]

/-- C4, counterexample.  Neither revision contains a semaphore, a
ConcurrencyLimiter or any wait queue: the /download handler of part_001
(lines 236-240) and downloadVideoBackground of index.js (lines 244-252)
spawn yt-dlp unconditionally.  Two concurrent download requests already
put two subprocesses in the running state (exceeding the minimal capacity
reading of 1), and no capacity bounds the count for all loads. -/
theorem C4_counterexample :
    runningCount (startMany 2) = 2 ∧
    ¬ ∃ capacity : Nat, ∀ n : Nat, runningCount (startMany n) ≤ capacity := by
  refine ⟨by decide, ?_⟩
  rintro ⟨c, hc⟩
  have h := hc (c + 1)
  rw [startMany_running] at h
  omega

/-- C4, amended.  Subprocess concurrency is unbounded: n concurrent
download requests for distinct videoIds put n subprocesses in the running
state simultaneously; no semaphore, capacity or FIFO waiter queue exists
in the code. -/
theorem C4_amended_unbounded : ∀ n : Nat, runningCount (startMany n) = n :=
  startMany_running

/-- C5.  On client disconnect the subprocess feeding the response is
killed.  part_001 lines 268-273: the /download close handler SIGKILLs the
process unconditionally, so afterwards it is always in the killed state.
index.js lines 587-596 with lines 357-378: /stream registers the live
yt-dlp process in the queue entry; the close handler kills the registered
process whenever no other client streams are attached (the source never
attaches any, so the streams array stays empty). -/
theorem C5_disconnect_kills :
    (∀ p : P1Proc, (p1DownloadOnReqClose p).killed = true) ∧
    (∀ (st : IdxState) (vid : String) (qd : IdxQEntry),
       JsMap.get st.queue vid = some qd → qd.streams = 0 →
       procRunning (streamVideoLiveStep st vid).1
         (streamVideoLiveStep st vid).2 = true ∧
       procRunning (handleStreamCloseIdx (streamVideoLiveStep st vid).1 vid)
         (streamVideoLiveStep st vid).2 = false) := by
  constructor
  · intro p
    unfold p1DownloadOnReqClose
    by_cases h : p.killed <;> simp [h]
  · intro st vid qd hq hs
    have hpair : streamVideoLiveStep st vid =
        ({ queue := JsMap.set st.queue vid { qd with process := some st.nextPid },
           procs := (st.nextPid, true) :: st.procs,
           nextPid := st.nextPid + 1 }, st.nextPid) := by
      simp [streamVideoLiveStep, spawnProc, hq]
    rw [hpair]
    constructor
    · simp [procRunning, JsMap.get, List.find?]
    · simp [handleStreamCloseIdx, JsMap.get_set_self, hs, procStop,
        procRunning, JsMap.get, List.find?]

/-- A queue entry for a download in progress with no process recorded yet. -/
def c5Entry : IdxQEntry :=
  { status := DlStatus.downloading, progress := 0, filePath := none,
    error := none, process := none, streams := 0 }

/-- A server state with one queued download and no process yet. -/
def c5St : IdxState := { queue := [("v", c5Entry)], procs := [], nextPid := 0 }

/-- C5, witness: the disconnect theorem applied at a concrete not-yet-killed
part_001 process and a concrete one-entry queue state. -/
theorem C5_witness :
    (p1DownloadOnReqClose ⟨false⟩).killed = true ∧
    procRunning (streamVideoLiveStep c5St "v").1
      (streamVideoLiveStep c5St "v").2 = true ∧
    procRunning (handleStreamCloseIdx (streamVideoLiveStep c5St "v").1 "v")
      (streamVideoLiveStep c5St "v").2 = false := by
  have h := C5_disconnect_kills
  have h2 := h.2 c5St "v" c5Entry (by decide) (by decide)
  exact ⟨h.1 ⟨false⟩, h2.1, h2.2⟩

/-- A completed cached queue entry for the range counterexample. -/
def c6Entry : IdxQEntry :=
  { status := DlStatus.completed, progress := 100,
    filePath := some (cachePathOf "v1"), error := none,
    process := none, streams := 0 }

/-- The response of /download/:videoId to a request carrying a valid Range
header for bytes 100-199 of a cached 1000-byte file. -/
def c6Resp : HttpResponse :=
  (handleDownloadVid [("v1", c6Entry)] [] 0 (fun _ => true) (fun _ => 1000)
    { videoId := "v1", rangeHeader := some "bytes=100-199" }).1

/-- C6, counterexample.  Neither cached-file branch (index.js lines 545-565
and 636-662) reads the Range header: the request for bytes 100-199 of a
1000-byte cached artifact is answered 200 (not 206) with Content-Length
1000 (not 100), no Content-Range header, and the whole file as body. -/
theorem C6_counterexample :
    c6Resp.status = 200 ∧ ¬ c6Resp.status = 206 ∧
    JsMap.get c6Resp.headers "Content-Range" = none ∧
    JsMap.get c6Resp.headers "Content-Length" = some "1000" ∧
    c6Resp.body = RespBody.fileAll (cachePathOf "v1") := by
  decide

/-- C6, amended.  Byte-range requests are ignored: for every Range header
(valid or malformed alike), serving a cached artifact from /download or
/stream returns 200 with Content-Length equal to the full file size, no
Content-Range header and the entire file as body; the code has no 206 or
416 path. -/
theorem C6_amended_range_ignored (st : IdxState)
    (mc : List (String × CacheEntryIdx StoredMeta)) (now : Nat)
    (fe : String → Bool) (fs : String → Nat) (vid : String) (qd : IdxQEntry)
    (fp : String) (range : Option String) (meta : StoredMeta)
    (hq : JsMap.get st.queue vid = some qd)
    (hst : qd.status = DlStatus.completed)
    (hfp : qd.filePath = some fp)
    (hex : fe fp = true)
    (hmd : (getCachedMetadata mc vid now).1 = some meta) :
    ((handleDownloadVid st.queue mc now fe fs ⟨vid, range⟩).1.status = 200 ∧
     JsMap.get (handleDownloadVid st.queue mc now fe fs
       ⟨vid, range⟩).1.headers "Content-Range" = none ∧
     JsMap.get (handleDownloadVid st.queue mc now fe fs
       ⟨vid, range⟩).1.headers "Content-Length" = some (toString (fs fp)) ∧
     (handleDownloadVid st.queue mc now fe fs ⟨vid, range⟩).1.body
       = RespBody.fileAll fp) ∧
    ((handleStreamRequest st mc now fe fs ⟨vid, range⟩).1.status = 200 ∧
     JsMap.get (handleStreamRequest st mc now fe fs
       ⟨vid, range⟩).1.headers "Content-Range" = none ∧
     JsMap.get (handleStreamRequest st mc now fe fs
       ⟨vid, range⟩).1.headers "Content-Length" = some (toString (fs fp)) ∧
     (handleStreamRequest st mc now fe fs ⟨vid, range⟩).1.body
       = RespBody.fileAll fp ∧
     (handleStreamRequest st mc now fe fs ⟨vid, range⟩).2.1 = st) := by
  constructor
  · simp only [handleDownloadVid]
    rw [hq]
    simp only [hst, hfp, hex]
    simp [JsMap.get, List.find?]
  · simp only [handleStreamRequest]
    rw [hq, hmd]
    simp only [hst, hfp, hex]
    simp [JsMap.get, List.find?]

/-- C6, witness: the amended theorem applied at the concrete completed
entry, a present metadata record, file size 1000 and the Range header
bytes 100-199. -/
theorem C6_witness :
    ((handleDownloadVid [("v1", c6Entry)]
        [("v1", (⟨⟨"T", ytUrl, "youtube"⟩, 0⟩ : CacheEntryIdx StoredMeta))] 0
        (fun _ => true) (fun _ => 1000)
        ⟨"v1", some "bytes=100-199"⟩).1.status = 200 ∧
     JsMap.get (handleDownloadVid [("v1", c6Entry)]
        [("v1", (⟨⟨"T", ytUrl, "youtube"⟩, 0⟩ : CacheEntryIdx StoredMeta))] 0
        (fun _ => true) (fun _ => 1000)
        ⟨"v1", some "bytes=100-199"⟩).1.headers "Content-Range" = none ∧
     JsMap.get (handleDownloadVid [("v1", c6Entry)]
        [("v1", (⟨⟨"T", ytUrl, "youtube"⟩, 0⟩ : CacheEntryIdx StoredMeta))] 0
        (fun _ => true) (fun _ => 1000)
        ⟨"v1", some "bytes=100-199"⟩).1.headers "Content-Length"
       = some (toString ((fun _ => 1000) (cachePathOf "v1"))) ∧
     (handleDownloadVid [("v1", c6Entry)]
        [("v1", (⟨⟨"T", ytUrl, "youtube"⟩, 0⟩ : CacheEntryIdx StoredMeta))] 0
        (fun _ => true) (fun _ => 1000)
        ⟨"v1", some "bytes=100-199"⟩).1.body
       = RespBody.fileAll (cachePathOf "v1")) ∧
    ((handleStreamRequest ⟨[("v1", c6Entry)], [], 0⟩
        [("v1", (⟨⟨"T", ytUrl, "youtube"⟩, 0⟩ : CacheEntryIdx StoredMeta))] 0
        (fun _ => true) (fun _ => 1000)
        ⟨"v1", some "bytes=100-199"⟩).1.status = 200 ∧
     JsMap.get (handleStreamRequest ⟨[("v1", c6Entry)], [], 0⟩
        [("v1", (⟨⟨"T", ytUrl, "youtube"⟩, 0⟩ : CacheEntryIdx StoredMeta))] 0
        (fun _ => true) (fun _ => 1000)
        ⟨"v1", some "bytes=100-199"⟩).1.headers "Content-Range" = none ∧
     JsMap.get (handleStreamRequest ⟨[("v1", c6Entry)], [], 0⟩
        [("v1", (⟨⟨"T", ytUrl, "youtube"⟩, 0⟩ : CacheEntryIdx StoredMeta))] 0
        (fun _ => true) (fun _ => 1000)
        ⟨"v1", some "bytes=100-199"⟩).1.headers "Content-Length"
       = some (toString ((fun _ => 1000) (cachePathOf "v1"))) ∧
     (handleStreamRequest ⟨[("v1", c6Entry)], [], 0⟩
        [("v1", (⟨⟨"T", ytUrl, "youtube"⟩, 0⟩ : CacheEntryIdx StoredMeta))] 0
        (fun _ => true) (fun _ => 1000)
        ⟨"v1", some "bytes=100-199"⟩).1.body
       = RespBody.fileAll (cachePathOf "v1") ∧
     (handleStreamRequest ⟨[("v1", c6Entry)], [], 0⟩
        [("v1", (⟨⟨"T", ytUrl, "youtube"⟩, 0⟩ : CacheEntryIdx StoredMeta))] 0
        (fun _ => true) (fun _ => 1000)
        ⟨"v1", some "bytes=100-199"⟩).2.1 = ⟨[("v1", c6Entry)], [], 0⟩) :=
  C6_amended_range_ignored ⟨[("v1", c6Entry)], [], 0⟩
    [("v1", (⟨⟨"T", ytUrl, "youtube"⟩, 0⟩ : CacheEntryIdx StoredMeta))] 0
    (fun _ => true) (fun _ => 1000) "v1" c6Entry (cachePathOf "v1")
    (some "bytes=100-199") ⟨"T", ytUrl, "youtube"⟩
    (by decide) (by decide) (by decide) (by decide) (by decide)

/-- C7, counterexample.  retryOperation (part_001 lines 89-101) inspects no
error message: an operation that always fails with a stderr text
containing Private video is still invoked CONFIG.maxRetries = 2 times,
not the single invocation the claim requires for permanent failures. -/
theorem C7_counterexample :
    (retryOperation (fun _ =>
        (Except.error "ERROR: Private video" : Except String Nat))).invocations = 2
    ∧ ¬ (retryOperation (fun _ =>
        (Except.error "ERROR: Private video" : Except String Nat))).invocations = 1 := by
  decide

/-- C7, amended.  Every failure, transient or permanent alike, is retried
up to CONFIG.maxRetries = 2 total invocations with linearly increasing
backoff (the sleep before re-running attempt k+1 is retryDelay times k);
in particular a permanently failing operation is always invoked exactly
maxRetries times and the last error propagates, regardless of the error
message. -/
theorem C7_amended_retry_all {α : Type} (op : Nat → Except String α) :
    1 ≤ (retryOperation op).invocations ∧
    (retryOperation op).invocations ≤ p1MaxRetries ∧
    (retryOperation op).delays =
      (List.range ((retryOperation op).invocations - 1)).map
        (fun k => p1RetryDelay * (k + 1)) ∧
    (∀ e1 e2 : String, op 1 = Except.error e1 → op 2 = Except.error e2 →
       (retryOperation op).invocations = p1MaxRetries ∧
       (retryOperation op).result = Except.error e2) := by
  cases h1 : op 1 with
  | ok v =>
    refine ⟨?_, ?_, ?_, ?_⟩
    · simp [retryOperation, retryFrom, p1MaxRetries, h1]
    · simp [retryOperation, retryFrom, p1MaxRetries, h1]
    · simp [retryOperation, retryFrom, p1MaxRetries, h1]
    · intro e1 e2 he1 _
      exact absurd he1 (by simp)
  | error e =>
    cases h2 : op 2 with
    | ok v =>
      refine ⟨?_, ?_, ?_, ?_⟩
      · simp [retryOperation, retryFrom, p1MaxRetries, h1, h2]
      · simp [retryOperation, retryFrom, p1MaxRetries, h1, h2]
      · simp [retryOperation, retryFrom, p1MaxRetries, h1, h2, List.range,
          List.range.loop]
      · intro e1 e2 _ he2
        exact absurd he2 (by simp)
    | error e2 =>
      refine ⟨?_, ?_, ?_, ?_⟩
      · simp [retryOperation, retryFrom, p1MaxRetries, h1, h2]
      · simp [retryOperation, retryFrom, p1MaxRetries, h1, h2]
      · simp [retryOperation, retryFrom, p1MaxRetries, h1, h2, List.range,
          List.range.loop]
      · intro e1 e2a he1 he2
        have he : e2 = e2a := by injection he2
        subst he
        constructor
        · simp [retryOperation, retryFrom, p1MaxRetries, h1, h2]
        · simp [retryOperation, retryFrom, p1MaxRetries, h1, h2]

/-- C7, witness: the amended theorem applied to an operation that always
fails with a permanent-looking message: both hypotheses hold by rfl and
the operation is invoked maxRetries times with the error propagated. -/
theorem C7_witness :
    (retryOperation (fun _ =>
        (Except.error "ERROR: Private video" : Except String Nat))).invocations
      = p1MaxRetries ∧
    (retryOperation (fun _ =>
        (Except.error "ERROR: Private video" : Except String Nat))).result
      = Except.error "ERROR: Private video" :=
  (C7_amended_retry_all (fun _ =>
      (Except.error "ERROR: Private video" : Except String Nat))).2.2.2
    "ERROR: Private video" "ERROR: Private video" rfl rfl

/-- State after starting a background download for v1 from a fresh server. -/
def c8St0 : IdxState :=
  downloadVideoBackgroundStart { queue := [], procs := [], nextPid := 0 } "v1" false

/-- State after that download's subprocess exits with code 1 and the close
handler for the failure branch runs. -/
def c8St1 : IdxState := dvbOnCloseNonzero (procStop c8St0 0) "v1" 1

/-- A metadata cache holding the record for v1. -/
def c8Mc : List (String × CacheEntryIdx StoredMeta) :=
  [("v1", ⟨⟨"T", ytUrl, "youtube"⟩, 0⟩)]

/-- The /stream request for v1 issued after the failure. -/
def c8Run : HttpResponse × IdxState × List (String × CacheEntryIdx StoredMeta) :=
  handleStreamRequest c8St1 c8Mc 0 (fun _ => false) (fun _ => 0)
    { videoId := "v1", rangeHeader := none }

/-- C8, counterexample.  After a failed background download the queue entry
for the key is not cleared: index.js lines 305-331 set its status to
failed and keep it, and the subsequent /stream request (lines 534-539)
returns the cached failure as 500 without spawning a fresh attempt (the
process/queue state is unchanged). -/
theorem C8_counterexample :
    ¬ JsMap.get c8St1.queue "v1" = none ∧
    (JsMap.get c8St1.queue "v1").map IdxQEntry.status = some DlStatus.failed ∧
    c8Run.1.status = 500 ∧
    c8Run.2.1 = c8St1 := by
  decide

/-- C8, amended.  On failure the downloadQueue entry is kept with status
failed and the error recorded; later /stream requests for the key return
500 with that failure and start nothing new.  Only a new /extract call,
which re-invokes downloadVideoBackground for the key, resets the entry to
downloading and spawns a fresh subprocess. -/
theorem C8_amended_failure_kept (st : IdxState) (vid : String) (code : Nat)
    (qd : IdxQEntry) (mc : List (String × CacheEntryIdx StoredMeta))
    (now : Nat) (fe : String → Bool) (fs : String → Nat) (meta : StoredMeta)
    (hq : JsMap.get st.queue vid = some qd)
    (hmd : (getCachedMetadata mc vid now).1 = some meta) :
    (JsMap.get (dvbOnCloseNonzero st vid code).queue vid).map IdxQEntry.status
      = some DlStatus.failed ∧
    (JsMap.get (dvbOnCloseNonzero st vid code).queue vid).map IdxQEntry.error
      = some (some ("Download failed with code " ++ toString code)) ∧
    (handleStreamRequest (dvbOnCloseNonzero st vid code) mc now fe fs
       ⟨vid, none⟩).1.status = 500 ∧
    (handleStreamRequest (dvbOnCloseNonzero st vid code) mc now fe fs
       ⟨vid, none⟩).2.1 = dvbOnCloseNonzero st vid code ∧
    (JsMap.get (downloadVideoBackgroundStart (dvbOnCloseNonzero st vid code)
       vid false).queue vid).map IdxQEntry.status = some DlStatus.downloading ∧
    runningCount (downloadVideoBackgroundStart (dvbOnCloseNonzero st vid code)
       vid false)
      = runningCount (dvbOnCloseNonzero st vid code) + 1 := by
  have hfail : JsMap.get (dvbOnCloseNonzero st vid code).queue vid =
      some { qd with status := DlStatus.failed, progress := 0, filePath := none,
                     error := some ("Download failed with code " ++ toString code),
                     streams := 0 } := by
    simp only [dvbOnCloseNonzero]
    rw [hq]
    exact JsMap.get_set_self _ _ _
  refine ⟨?_, ?_, ?_, ?_, ?_, ?_⟩
  · rw [hfail]; rfl
  · rw [hfail]; rfl
  · simp only [handleStreamRequest]
    rw [hfail, hmd]
    simp
  · simp only [handleStreamRequest]
    rw [hfail, hmd]
    simp
  · simp only [downloadVideoBackgroundStart, Bool.false_eq_true, if_false, spawnProc]
    rw [JsMap.get_set_self]
    simp [JsMap.get_set_self]
  · exact runningCount_dvbStart _ _

/-- C8, witness: the amended theorem applied at the concrete failed state. -/
theorem C8_witness :
    (JsMap.get (dvbOnCloseNonzero (procStop c8St0 0) "v1" 1).queue "v1").map
      IdxQEntry.status = some DlStatus.failed ∧
    (JsMap.get (dvbOnCloseNonzero (procStop c8St0 0) "v1" 1).queue "v1").map
      IdxQEntry.error = some (some ("Download failed with code " ++ toString 1)) ∧
    (handleStreamRequest (dvbOnCloseNonzero (procStop c8St0 0) "v1" 1) c8Mc 0
       (fun _ => false) (fun _ => 0) ⟨"v1", none⟩).1.status = 500 ∧
    (handleStreamRequest (dvbOnCloseNonzero (procStop c8St0 0) "v1" 1) c8Mc 0
       (fun _ => false) (fun _ => 0) ⟨"v1", none⟩).2.1
      = dvbOnCloseNonzero (procStop c8St0 0) "v1" 1 ∧
    (JsMap.get (downloadVideoBackgroundStart
       (dvbOnCloseNonzero (procStop c8St0 0) "v1" 1) "v1" false).queue "v1").map
      IdxQEntry.status = some DlStatus.downloading ∧
    runningCount (downloadVideoBackgroundStart
       (dvbOnCloseNonzero (procStop c8St0 0) "v1" 1) "v1" false)
      = runningCount (dvbOnCloseNonzero (procStop c8St0 0) "v1" 1) + 1 :=
  C8_amended_failure_kept (procStop c8St0 0) "v1" 1
    { status := DlStatus.downloading, progress := 0, filePath := none,
      error := none, process := some 0, streams := 0 }
    c8Mc 0 (fun _ => false) (fun _ => 0) ⟨"T", ytUrl, "youtube"⟩
    (by decide) (by decide)

/-- C9.  Format selection of the /extract handler (index.js lines 432-468).
First conjunct: with separate video and audio components whose sizes and
video height are known, the reported size is the sum of the two sizes and
the resolution is the video height with a p suffix.  Second conjunct:
with no requested formats and unknown top-level duration, sizes and
height, the response carries exactly the defaults 0, null (none) and
the string unknown.  Third conjunct: with components whose sizes and
height are all unknown, the sum 0 is collapsed to null by JS falsiness
and the resolution is the string unknown. -/
theorem C9_format_selection :
    (∀ (m : IdxMeta) (platform url : String) (nowMs : Nat) (vf af : Fmt)
       (sv sa h : Nat),
       m.requested_formats.find? fmtHasVideo = some vf →
       m.requested_formats.find? fmtHasAudio = some af →
       vf.filesize = some sv → ¬ sv = 0 →
       af.filesize = some sa → ¬ sa = 0 →
       vf.height = some h → ¬ h = 0 →
       0 < m.requested_formats.length →
       (buildExtractResponse m platform url nowMs).filesize = some (sv + sa) ∧
       (buildExtractResponse m platform url nowMs).resolution
         = toString h ++ "p") ∧
    (∀ (m : IdxMeta) (platform url : String) (nowMs : Nat),
       m.requested_formats = [] → m.duration = none → m.filesize = none →
       m.filesize_approx = none → m.height = none →
       (buildExtractResponse m platform url nowMs).duration = 0 ∧
       (buildExtractResponse m platform url nowMs).filesize = none ∧
       (buildExtractResponse m platform url nowMs).resolution = "unknown") ∧
    (∀ (m : IdxMeta) (platform url : String) (nowMs : Nat) (vf af : Fmt),
       m.requested_formats.find? fmtHasVideo = some vf →
       m.requested_formats.find? fmtHasAudio = some af →
       vf.filesize = none → vf.filesize_approx = none →
       af.filesize = none → af.filesize_approx = none →
       vf.height = none →
       0 < m.requested_formats.length →
       (buildExtractResponse m platform url nowMs).filesize = none ∧
       (buildExtractResponse m platform url nowMs).resolution = "unknown") := by
  refine ⟨?_, ?_, ?_⟩
  · intro m platform url nowMs vf af sv sa h hv ha hsv hsv0 hsa hsa0 hh hh0 hlen
    have hsum : ¬ sv + sa = 0 := by omega
    constructor
    · simp [buildExtractResponse, hlen, hv, ha, fmtSize, truthyNat, hsv, hsv0,
        hsa, hsa0, hsum]
    · simp [buildExtractResponse, hlen, hv, truthyNat, hh, hh0]
  · intro m platform url nowMs hrf hdur hfs hfsa hh
    refine ⟨?_, ?_, ?_⟩
    · simp [buildExtractResponse, orNat, hdur]
    · simp [buildExtractResponse, hrf, natOrElse, truthyNat, hfs, hfsa]
    · simp [buildExtractResponse, hrf, truthyNat, hh]
  · intro m platform url nowMs vf af hv ha hsv hsva hsa hsaa hh hlen
    constructor
    · simp [buildExtractResponse, hlen, hv, ha, fmtSize, truthyNat, hsv, hsva,
        hsa, hsaa]
    · simp [buildExtractResponse, hlen, hv, truthyNat, hh]

/-- A merged-selection extractor result: video component of 700000 bytes at
height 1080, audio component of 300000 bytes. -/
def c9Meta : IdxMeta :=
  { requested_formats :=
      [{ vcodec := some "avc1", acodec := some "none", filesize := some 700000,
         filesize_approx := none, height := some 1080 },
       { vcodec := some "none", acodec := some "mp4a", filesize := some 300000,
         filesize_approx := none, height := none }]
    id := some "abc", video_id := none, title := some "T",
    uploader := some "U", channel := none, uploader_id := none,
    thumbnail := some "th", duration := some 60, filesize := none,
    filesize_approx := none, height := none, ext := some "mp4" }

/-- An extractor result where everything relevant is unknown. -/
def c9Unknown : IdxMeta :=
  { requested_formats := [], id := some "abc", video_id := none,
    title := none, uploader := none, channel := none, uploader_id := none,
    thumbnail := none, duration := none, filesize := none,
    filesize_approx := none, height := none, ext := none }

/-- C9, witness: the format-selection theorem applied at the concrete
merged selection (700000 + 300000 bytes, 1080p) and at the all-unknown
record (defaults 0, null, unknown). -/
theorem C9_witness :
    ((buildExtractResponse c9Meta "youtube" ytUrl 0).filesize
       = some (700000 + 300000) ∧
     (buildExtractResponse c9Meta "youtube" ytUrl 0).resolution
       = toString 1080 ++ "p") ∧
    ((buildExtractResponse c9Unknown "youtube" ytUrl 0).duration = 0 ∧
     (buildExtractResponse c9Unknown "youtube" ytUrl 0).filesize = none ∧
     (buildExtractResponse c9Unknown "youtube" ytUrl 0).resolution
       = "unknown") :=
  ⟨C9_format_selection.1 c9Meta "youtube" ytUrl 0
      (c9Meta.requested_formats.get ⟨0, by decide⟩)
      (c9Meta.requested_formats.get ⟨1, by decide⟩)
      700000 300000 1080 (by decide) (by decide) (by decide) (by decide)
      (by decide) (by decide) (by decide) (by decide) (by decide),
   C9_format_selection.2.1 c9Unknown "youtube" ytUrl 0
      (by decide) (by decide) (by decide) (by decide) (by decide)⟩

/-- C10.  GET /download/:videoId (index.js lines 607-677): while the
background download is still running the handler returns 202 with a JSON
body reporting the status and progress and pointing at the /status and
/stream endpoints, and media bytes are served if and only if the entry is
completed, a file path is recorded and the file exists on disk. -/
theorem C10_download_gating (queue : List (String × IdxQEntry))
    (mc : List (String × CacheEntryIdx StoredMeta)) (now : Nat)
    (fe : String → Bool) (fs : String → Nat) (vid : String) (qd : IdxQEntry)
    (range : Option String)
    (hq : JsMap.get queue vid = some qd) :
    (qd.status = DlStatus.downloading →
       (handleDownloadVid queue mc now fe fs ⟨vid, range⟩).1.status = 202 ∧
       (handleDownloadVid queue mc now fe fs ⟨vid, range⟩).1.body
         = RespBody.json
             [("message",
               "Video is still downloading. Use /stream endpoint for immediate progressive download."),
              ("status", "downloading"),
              ("progress", toString qd.progress),
              ("statusUrl", "/status/" ++ vid),
              ("streamUrl", "/stream/" ++ vid),
              ("retryAfter", "5")]) ∧
    ((∃ p, (handleDownloadVid queue mc now fe fs ⟨vid, range⟩).1.body
        = RespBody.fileAll p) ↔
      (qd.status = DlStatus.completed ∧
       ∃ fp, qd.filePath = some fp ∧ fe fp = true)) := by
  constructor
  · intro hdl
    simp only [handleDownloadVid]
    rw [hq]
    simp [hdl]
  · simp only [handleDownloadVid]
    rw [hq]
    cases hst : qd.status with
    | downloading => simp [hst]
    | failed => simp [hst]
    | completed =>
      cases hfp : qd.filePath with
      | none => simp [hst, hfp]
      | some fp =>
        cases hex : fe fp with
        | true => simp [hst, hfp, hex]
        | false => simp [hst, hfp, hex]

/-- C10, witness: a downloading entry at 42 percent answers 202 with the
progress JSON, and a completed entry with an existing file serves the
file. -/
theorem C10_witness :
    ((handleDownloadVid
        [("v1", { status := DlStatus.downloading, progress := 42,
                  filePath := none, error := none, process := some 0,
                  streams := 0 })] [] 0 (fun _ => false) (fun _ => 0)
        ⟨"v1", none⟩).1.status = 202 ∧
     (handleDownloadVid
        [("v1", { status := DlStatus.downloading, progress := 42,
                  filePath := none, error := none, process := some 0,
                  streams := 0 })] [] 0 (fun _ => false) (fun _ => 0)
        ⟨"v1", none⟩).1.body
       = RespBody.json
           [("message",
             "Video is still downloading. Use /stream endpoint for immediate progressive download."),
            ("status", "downloading"),
            ("progress", toString 42),
            ("statusUrl", "/status/" ++ "v1"),
            ("streamUrl", "/stream/" ++ "v1"),
            ("retryAfter", "5")]) ∧
    ((∃ p, (handleDownloadVid [("v1", c6Entry)] [] 0 (fun _ => true)
        (fun _ => 1000) ⟨"v1", none⟩).1.body = RespBody.fileAll p) ↔
      (c6Entry.status = DlStatus.completed ∧
       ∃ fp, c6Entry.filePath = some fp ∧ (fun _ => true) fp = true)) :=
  ⟨(C10_download_gating
      [("v1", { status := DlStatus.downloading, progress := 42,
                filePath := none, error := none, process := some 0,
                streams := 0 })] [] 0 (fun _ => false) (fun _ => 0) "v1"
      { status := DlStatus.downloading, progress := 42, filePath := none,
        error := none, process := some 0, streams := 0 } none
      (by decide)).1 rfl,
   (C10_download_gating [("v1", c6Entry)] [] 0 (fun _ => true) (fun _ => 1000)
      "v1" c6Entry none (by decide)).2⟩
